import Mathlib

/-!
Shallow embedding of the benchmark-dashboard pipeline
(benches/generate_dashboard.py): unit normalisation, run parsing,
results-store construction, run-over-run comparison and HTML rendering.
Machine floats of the original are modelled as exact rationals; the
file system (directory listing, file contents, chart presence) is
modelled as explicit data passed to the functions that read it.
-/

namespace Dashboard

/-! ## Decimal formatting (models Python fixed-point float formatting) -/

/-- Round a rational to the nearest integer, ties to the even integer
(the rounding used by Python fixed-point string formatting). -/
def roundHalfEven (q : ℚ) : ℤ :=
  let f := ⌊q⌋
  let r := q - (f : ℚ)
  if r < 1 / 2 then f
  else if 1 / 2 < r then f + 1
  else if f % 2 = 0 then f else f + 1

/-- Digits of a natural number, left-padded with zeros to width w. -/
def padLeftZeros (cs : List Char) (w : ℕ) : List Char :=
  if cs.length < w then List.replicate (w - cs.length) '0' ++ cs else cs

/-- Decimal rendering of a natural number n standing for a magnitude
scaled by 10 ^ d: the last d digits go after the decimal point. -/
def renderFixed (n d : ℕ) : String :=
  let cs := (Nat.repr n).data
  if d = 0 then ⟨cs⟩
  else
    let cs := padLeftZeros cs (d + 1)
    ⟨cs.take (cs.length - d) ++ '.' :: cs.drop (cs.length - d)⟩

/-- Fixed-point rendering of a nonnegative rational with d decimal places,
as Python renders a nonnegative float with a .df format spec. -/
def formatFixedPos (q : ℚ) (d : ℕ) : String :=
  renderFixed (roundHalfEven (q * 10 ^ d)).toNat d

/-- Fixed-point rendering with d decimal places, any sign
(a minus sign prefixes negative values, as Python does). -/
def formatFixed (q : ℚ) (d : ℕ) : String :=
  if q < 0 then "-" ++ formatFixedPos (-q) d else formatFixedPos q d

/-- Rendering with a mandatory sign and one decimal place, as Python's
+.1f format spec produces for the comparison-table change cell. -/
def signedFixed1 (q : ℚ) : String :=
  (if q < 0 then "-" else "+") ++ formatFixedPos |q| 1

/-- format_time of generate_dashboard.py: tiered unit selection
(ns with no decimals, then micro/milli with one decimal, then seconds
with two decimals). -/
def format_time (nanoseconds : ℚ) : String :=
  if nanoseconds < 1000 then formatFixed nanoseconds 0 ++ " ns"
  else if nanoseconds < 1000000 then formatFixed (nanoseconds / 1000) 1 ++ " μs"
  else if nanoseconds < 1000000000 then formatFixed (nanoseconds / 1000000) 1 ++ " ms"
  else formatFixed (nanoseconds / 1000000000) 2 ++ " s"

/-! ## Run parsing (parse_benchmark_results) -/

/-- The character class of the magnitude groups of the extraction regex:
a digit or a dot. -/
def isFloatChar (c : Char) : Bool := c.isDigit || c = '.'

/-- Value of a digit list read in base 10. -/
def natOfDigits (l : List Char) : ℕ :=
  l.foldl (fun a c => 10 * a + (c.toNat - 48)) 0

/-- Models Python float() restricted to the inputs that can reach it here:
an optional sign followed by digits and dots. It fails (ValueError) when a
non-digit/dot character remains, when there is more than one dot, or when
there is no digit at all; otherwise it returns the exact decimal value. -/
def parseFloat (s : String) : Option ℚ :=
  let cs := s.data
  let sgn : ℚ := if cs.head? = some '-' then -1 else 1
  let body := if cs.head? = some '-' ∨ cs.head? = some '+' then cs.tail else cs
  if body.all isFloatChar then
    if 2 ≤ body.count '.' then none
    else if body.any Char.isDigit then
      let intPart := body.takeWhile (fun c => c ≠ '.')
      let fracPart := (body.dropWhile (fun c => c ≠ '.')).tail
      some (sgn * ((natOfDigits intPart : ℚ) +
        (natOfDigits fracPart : ℚ) / 10 ^ fracPart.length))
    else none
  else none

/-- The unit-to-nanosecond multiplier of the conversion chain at the heart
of parse_benchmark_results: ns, the three microsecond spellings, ms and s
are recognised; anything else is the unknown-unit case. -/
def unitMultiplier (unit : String) : Option ℚ :=
  if unit = "ns" then some 1
  else if unit = "us" ∨ unit = "µs" ∨ unit = "μs" then some 1000
  else if unit = "ms" then some 1000000
  else if unit = "s" then some 1000000000
  else none

/-- One regex match: group 1 (test name), group 4 (mean magnitude text,
matched by the digit-or-dot class) and group 5 (mean unit). The low/high
groups are never used by the code and are not modelled. -/
structure BenchMatch where
  testName : String
  meanStr : String
  unit : String
deriving DecidableEq

/-- How the per-match try-block of parse_benchmark_results disposes of one
match: float() failure, the negative-time guard, the unknown-unit branch,
or a stored (test, nanosecond) entry. -/
inductive MatchOutcome where
  | parseError
  | negativeTime
  | unknownUnit
  | ok (test : String) (ns : ℚ)
deriving DecidableEq

/-- The body of the per-match loop of parse_benchmark_results: parse the
mean, reject negatives, convert the unit, store the entry. -/
def classifyMatch (m : BenchMatch) : MatchOutcome :=
  match parseFloat m.meanStr with
  | none => .parseError
  | some mean =>
    if mean < 0 then .negativeTime
    else
      match unitMultiplier m.unit with
      | none => .unknownUnit
      | some k => .ok m.testName (mean * k)

/-- The stored entry from one match, if any: every non-ok outcome is a
printed warning followed by continue. -/
def processMatch (m : BenchMatch) : Option (String × ℚ) :=
  match classifyMatch m with
  | .ok t ns => some (t, ns)
  | _ => none

/-- The whole per-file loop: each skipped match contributes nothing, the
rest contribute their entries in order. -/
def processMatches (ms : List BenchMatch) : List (String × ℚ) :=
  ms.filterMap processMatch

/-- The per-test timings of one suite, in insertion order. -/
abbrev Tests := List (String × ℚ)

/-- The suite-to-tests mapping of one run, in insertion order. -/
abbrev Benchmarks := List (String × Tests)

/-- One stored run: the timestamp-directory base name and the parsed
benchmarks mapping. -/
structure Run where
  name : String
  benchmarks : Benchmarks
deriving DecidableEq

/-- One directory entry under the results root, as the directory walk sees
it: its base name, whether it is a directory, whether its name parses
against the fixed timestamp pattern, and, per text artifact inside, the
file stem and the regex matches of its content. File reading and the
regex engine are external effects; their outcomes appear here as data
(an unreadable, empty or matchless artifact has an empty match list). -/
structure RunDir where
  name : String
  isDir : Bool
  tsValid : Bool
  files : List (String × List BenchMatch)
deriving DecidableEq

/-- The per-file loop of parse_benchmark_results: a suite key is created
only when a first entry is stored under it, so an artifact whose matches
are all skipped contributes no suite at all. -/
def parseRunFiles (files : List (String × List BenchMatch)) : Benchmarks :=
  files.filterMap fun f =>
    let entries := processMatches f.2
    if entries.isEmpty then none else some (f.1, entries)

/-- Ascending base-name order, the order sorted() gives the directory
walk (paths share the fixed root prefix, so path order is name order). -/
def dirNameLE (a b : RunDir) : Prop := a.name ≤ b.name

instance : DecidableRel dirNameLE :=
  fun a b => inferInstanceAs (Decidable (a.name ≤ b.name))

instance : IsTotal RunDir dirNameLE := ⟨fun a b => le_total a.name b.name⟩

instance : IsTrans RunDir dirNameLE := ⟨fun _ _ _ h1 h2 => le_trans h1 h2⟩

/-- The per-directory step of the walk: skip non-directories and
unparseable timestamps, parse the run's artifacts, and keep the run only
when its benchmarks mapping is non-empty. -/
def keepRun (d : RunDir) : Option Run :=
  if d.isDir then
    if d.tsValid then
      let b := parseRunFiles d.files
      if b.isEmpty then none else some ⟨d.name, b⟩
    else none
  else none

/-- parse_benchmark_results: the sorted directory walk, one keepRun step
per directory entry. -/
def parse_benchmark_results (dirs : List RunDir) : List Run :=
  (List.insertionSort dirNameLE dirs).filterMap keepRun

/-! ## Comparison (the last-vs-previous loop of generate_html_dashboard) -/

/-- First-match association-list lookup, the dict lookup of the model. -/
def lookupA {α : Type} : List (String × α) → String → Option α
  | [], _ => none
  | (k', v) :: t, k => if k' = k then some v else lookupA t k

/-- The percent-change value as the code computes it: the zero-previous
branch yields 0 or the float infinity sentinel, the main branch the exact
formula. -/
inductive PercentChange where
  | finite (q : ℚ)
  | posInf
deriving DecidableEq

/-- change as assigned by the comparison loop. -/
def changeOf (prev curr : ℚ) : PercentChange :=
  if prev = 0 then (if curr = 0 then .finite 0 else .posInf)
  else .finite ((curr - prev) / prev * 100)

/-- The (change text, CSS class) pair of one comparison row; the empty
class string is the neutral rendering (no colouring). The prev = 0 branch
never divides, so no division fault can arise there. -/
def comparisonCell (prev curr : ℚ) : String × String :=
  if prev = 0 then
    (if curr = 0 then "N/A" else "+∞%", "")
  else
    let change := (curr - prev) / prev * 100
    ((if 1 / 10 < |change| then signedFixed1 change ++ "%" else "~"),
     (if change < 0 then "improvement"
      else if 5 < change then "regression" else ""))

/-- The qualitative class as the specification words it, written from the
spec for comparison with the code's comparisonCell: the class is a
function of the percent change alone, where a change below zero is an
improvement, a change above the fixed 5 percent threshold (which the
unbounded-increase sentinel exceeds) is a regression, and anything else
is neutral (the empty class string). -/
def specClassOf : PercentChange → String
  | .posInf => "regression"
  | .finite q =>
    if q < 0 then "improvement" else if 5 < q then "regression" else ""

/-- The comparison rows (suite, test, previous, latest) produced by the
nested loop: iterate the latest run's pairs, skip any suite or test absent
from the previous run. -/
def comparisonRows (latest previous : Benchmarks) :
    List (String × String × ℚ × ℚ) :=
  latest.flatMap fun st =>
    match lookupA previous st.1 with
    | none => []
    | some ptests =>
      st.2.filterMap fun tv =>
        match lookupA ptests tv.1 with
        | none => none
        | some pv => some (st.1, tv.1, pv, tv.2)

/-- The (suite, test) pairs of the comparison set. -/
def pairsOfRows (rows : List (String × String × ℚ × ℚ)) :
    List (String × String) :=
  rows.map fun r => (r.1, r.2.1)

/-! ## HTML rendering (generate_html_dashboard) -/

/-- Key order on association-list entries, the order sorted() gives
dict items (keys are unique, so comparing keys decides). -/
def keyLE {α : Type} (a b : String × α) : Prop := a.1 ≤ b.1

instance {α : Type} : DecidableRel (keyLE (α := α)) :=
  fun a b => inferInstanceAs (Decidable (a.1 ≤ b.1))

/-- The template text up to the Last-updated timestamp. -/
def chunkHead : String :=
  "\n<!DOCTYPE html>\n<html>\n<head>\n    <title>Script Language Performance Dashboard</title>\n    <style>\n        body \x7b font-family: Arial, sans-serif; margin: 20px; \x7d\n        h1 \x7b color: #333; \x7d\n        .benchmark-section \x7b margin: 20px 0; \x7d\n        .chart \x7b margin: 10px 0; \x7d\n        table \x7b border-collapse: collapse; width: 100%; margin: 20px 0; \x7d\n        th, td \x7b border: 1px solid #ddd; padding: 8px; text-align: left; \x7d\n        th \x7b background-color: #f2f2f2; \x7d\n        .improvement \x7b color: green; \x7d\n        .regression \x7b color: red; \x7d\n        .timestamp \x7b font-size: 0.9em; color: #666; \x7d\n    </style>\n</head>\n<body>\n    <h1>Script Language Performance Dashboard</h1>\n    <p class=\"timestamp\">Last updated: "

/-- The template text between the timestamp and the charts slot. -/
def chunkTrends : String :=
  "</p>\n    \n    <h2>Performance Trends</h2>\n    "

/-- The template text between the charts and latest-results slots. -/
def chunkLatest : String :=
  "\n    \n    <h2>Latest Results</h2>\n    "

/-- The template text between the latest-results and comparisons slots. -/
def chunkComparisons : String :=
  "\n    \n    <h2>Performance Comparisons</h2>\n    "

/-- The template text after the comparisons slot. -/
def chunkFooter : String := "\n</body>\n</html>\n"

/-- The fixed enumerated suite list of the Performance Trends section. -/
def suiteNames : List String :=
  ["lexer", "parser", "compilation", "features", "scenarios", "memory", "tooling"]

/-- The charts section: one image div per suite whose chart file exists on
disk; chart presence is an external effect, passed in as a predicate. -/
def chartsSection (chartExists : String → Bool) : String :=
  String.join (suiteNames.map fun s =>
    if chartExists s then
      "<div class=\"chart\"><h3>" ++ s.capitalize ++ "</h3><img src=\"" ++
        s ++ "_performance.png\" width=\"800\"></div>\n"
    else "")

/-- The rows of the Latest Results table: suites sorted by name, tests
sorted by name within each suite. -/
def latestRowsHtml (b : Benchmarks) : String :=
  String.join ((List.insertionSort keyLE b).map fun st =>
    String.join ((List.insertionSort keyLE st.2).map fun tv =>
      "<tr><td>" ++ st.1 ++ "</td><td>" ++ tv.1 ++ "</td><td>" ++
        format_time tv.2 ++ "</td></tr>"))

/-- latest_html: the Latest Results table over the most recent run, or
the no-results placeholder when the store is empty. -/
def latestHtml (results : List Run) : String :=
  match results.getLast? with
  | none => "<p>No results available</p>"
  | some latest =>
    "<table><tr><th>Benchmark</th><th>Test</th><th>Time</th></tr>" ++
      latestRowsHtml latest.benchmarks ++ "</table>"

/-- One comparison-table row, with the exact multi-line layout of the
f-string in the source. -/
def comparisonRowHtml (r : String × String × ℚ × ℚ) : String :=
  let cell := comparisonCell r.2.2.1 r.2.2.2
  "<tr>\n                    <td>" ++ r.1 ++
    "</td>\n                    <td>" ++ r.2.1 ++
    "</td>\n                    <td>" ++ format_time r.2.2.1 ++
    "</td>\n                    <td>" ++ format_time r.2.2.2 ++
    "</td>\n                    <td class=\"" ++ cell.2 ++ "\">" ++ cell.1 ++
    "</td>\n                </tr>"

/-- comparison_html: the comparison table over the last two runs, or the
insufficient-history placeholder when fewer than two runs exist. -/
def comparisonHtml (results : List Run) : String :=
  match results.reverse with
  | latest :: previous :: _ =>
    "<table><tr><th>Benchmark</th><th>Test</th><th>Previous</th><th>Latest</th><th>Change</th></tr>"
      ++ String.join
        ((comparisonRows latest.benchmarks previous.benchmarks).map comparisonRowHtml)
      ++ "</table>"
  | _ => "<p>Need at least 2 runs for comparison</p>"

/-- The part of the rendered document from the Latest Results heading to
the end: it depends only on the parsed run sequence. -/
def tablesPart (results : List Run) : String :=
  chunkLatest ++ (latestHtml results ++
    (chunkComparisons ++ (comparisonHtml results ++ chunkFooter)))

/-- generate_html_dashboard: the full document, the template filled with
the generation timestamp, the charts section and the two tables. -/
def generate_html_dashboard (results : List Run) (chartExists : String → Bool)
    (now : String) : String :=
  chunkHead ++ (now ++ (chunkTrends ++ (chartsSection chartExists ++ tablesPart results)))

/-- main: parse the results root; with no usable results print the advice
text and exit 1 without rendering anything; otherwise render the dashboard
and exit 0. The returned pair is (exit status, document written, if any);
the final write and its on-disk confirmation are modelled as succeeding. -/
def mainRun (dirs : List RunDir) (chartExists : String → Bool)
    (now : String) : ℤ × Option String :=
  let results := parse_benchmark_results dirs
  if results.isEmpty then (1, none)
  else (0, some (generate_html_dashboard results chartExists now))

/-! ## Shared lemmas -/

theorem roundHalfEven_of_lt {q : ℚ} {n : ℤ} (h1 : (n : ℚ) ≤ q)
    (h2 : q < (n : ℚ) + 1 / 2) : roundHalfEven q = n := by
  have hf : ⌊q⌋ = n := Int.floor_eq_iff.mpr ⟨h1, by linarith⟩
  unfold roundHalfEven
  rw [hf, if_pos (by linarith : q - (n : ℚ) < 1 / 2)]

theorem roundHalfEven_of_gt {q : ℚ} {n : ℤ} (h1 : (n : ℚ) + 1 / 2 < q)
    (h2 : q < (n : ℚ) + 1) : roundHalfEven q = n + 1 := by
  have hf : ⌊q⌋ = n := Int.floor_eq_iff.mpr ⟨by linarith, h2⟩
  unfold roundHalfEven
  rw [hf, if_neg (by linarith : ¬(q - (n : ℚ) < 1 / 2)),
    if_pos (by linarith : 1 / 2 < q - (n : ℚ))]

theorem roundHalfEven_intCast (n : ℤ) : roundHalfEven (n : ℚ) = n := by
  apply roundHalfEven_of_lt (le_refl _)
  norm_num

theorem str_append_assoc (a b c : String) : a ++ b ++ c = a ++ (b ++ c) := by
  apply String.ext
  simp [String.data_append, List.append_assoc]

/-! ## Claims -/

/-- Claim C2: format_time selects units by tiers — below 1000 the value
renders in nanoseconds with no decimal place, below 1000000 in
microseconds with one decimal place, below 1000000000 in milliseconds
with one decimal place, and otherwise in seconds with two decimal
places; at the boundaries, 999 renders as 999 ns, 1000 as 1.0 μs and
999999 as 1000.0 μs. -/
theorem format_time_tier_selection :
    (∀ v : ℚ,
      (v < 1000 → format_time v = formatFixed v 0 ++ " ns") ∧
      (1000 ≤ v → v < 1000000 →
        format_time v = formatFixed (v / 1000) 1 ++ " μs") ∧
      (1000000 ≤ v → v < 1000000000 →
        format_time v = formatFixed (v / 1000000) 1 ++ " ms") ∧
      (1000000000 ≤ v →
        format_time v = formatFixed (v / 1000000000) 2 ++ " s")) ∧
    format_time 999 = "999 ns" ∧ format_time 1000 = "1.0 μs" ∧
    format_time 999999 = "1000.0 μs" := by
  refine ⟨fun v => ⟨fun h => ?_, fun h1 h2 => ?_, fun h1 h2 => ?_, fun h1 => ?_⟩,
    ?_, ?_, ?_⟩
  · rw [format_time, if_pos h]
  · rw [format_time, if_neg (not_lt.mpr h1), if_pos h2]
  · rw [format_time, if_neg (not_lt.mpr (by linarith)),
      if_neg (not_lt.mpr h1), if_pos h2]
  · rw [format_time, if_neg (not_lt.mpr (by linarith)),
      if_neg (not_lt.mpr (by linarith)), if_neg (not_lt.mpr h1)]
  · have h : roundHalfEven ((999 : ℚ) * 10 ^ 0) = 999 := by
      rw [show ((999 : ℚ) * 10 ^ 0) = ((999 : ℤ) : ℚ) by norm_num,
        roundHalfEven_intCast]
    rw [format_time, if_pos (by norm_num : (999 : ℚ) < 1000), formatFixed,
      if_neg (by norm_num : ¬((999 : ℚ) < 0)), formatFixedPos, h]
    decide
  · have h : roundHalfEven ((1000 : ℚ) / 1000 * 10 ^ 1) = 10 := by
      rw [show ((1000 : ℚ) / 1000 * 10 ^ 1) = ((10 : ℤ) : ℚ) by norm_num,
        roundHalfEven_intCast]
    rw [format_time, if_neg (by norm_num : ¬((1000 : ℚ) < 1000)),
      if_pos (by norm_num : (1000 : ℚ) < 1000000), formatFixed,
      if_neg (by norm_num : ¬((1000 : ℚ) / 1000 < 0)), formatFixedPos, h]
    decide
  · have h : roundHalfEven ((999999 : ℚ) / 1000 * 10 ^ 1) = 10000 := by
      rw [show ((10000 : ℤ) = 9999 + 1) from rfl]
      apply roundHalfEven_of_gt <;> norm_num
    rw [format_time, if_neg (by norm_num : ¬((999999 : ℚ) < 1000)),
      if_pos (by norm_num : (999999 : ℚ) < 1000000), formatFixed,
      if_neg (by norm_num : ¬((999999 : ℚ) / 1000 < 0)), formatFixedPos, h]
    decide

/-- Witness for C2: the nanosecond tier applied at 500. -/
theorem format_time_tier_selection_witness :
    format_time 500 = formatFixed 500 0 ++ " ns" :=
  (format_time_tier_selection.1 500).1 (by norm_num)

/-- Claim C3: with a non-zero previous value the percent change is the
exact formula (latest − previous) / previous × 100; with previous = 0 and
latest = 0 the row reports the text N/A with the neutral class (the empty
class string); with previous = 0 and latest ≠ 0 it reports the
unbounded-increase sentinel. The previous = 0 branch never divides, so no
division fault arises. -/
theorem percent_change_zero_guard :
    ∀ p c : ℚ,
      (p ≠ 0 → changeOf p c = .finite ((c - p) / p * 100)) ∧
      (p = 0 → c = 0 → comparisonCell p c = ("N/A", "")) ∧
      (p = 0 → c ≠ 0 → (comparisonCell p c).1 = "+∞%") := by
  refine fun p c => ⟨fun hp => ?_, fun hp hc => ?_, fun hp hc => ?_⟩
  · rw [changeOf, if_neg hp]
  · rw [comparisonCell, if_pos hp, if_pos hc]
  · rw [comparisonCell, if_pos hp, if_neg hc]

/-- Witness for C3: the previous = 0, latest = 0 row. -/
theorem percent_change_zero_guard_witness :
    comparisonCell 0 0 = ("N/A", "") :=
  (percent_change_zero_guard 0 0).2.1 rfl rfl

/-- Claim C10: for a row with previous ≠ 0, a change of absolute value at
most 0.1 renders as the literal tilde, and any larger change renders with
a mandatory sign and one decimal place followed by the percent sign. -/
theorem change_cell_insignificance_epsilon :
    ∀ p c : ℚ, p ≠ 0 →
      (|(c - p) / p * 100| ≤ 1 / 10 → (comparisonCell p c).1 = "~") ∧
      (1 / 10 < |(c - p) / p * 100| →
        (comparisonCell p c).1 = signedFixed1 ((c - p) / p * 100) ++ "%") := by
  refine fun p c hp => ⟨fun h => ?_, fun h => ?_⟩
  · rw [comparisonCell, if_neg hp]
    simp only [if_neg (not_lt.mpr h)]
  · rw [comparisonCell, if_neg hp]
    simp only [if_pos h]

/-- Witness for C10: previous 200000, latest 180000, a −10 percent
change, rendered signed with one decimal place. -/
theorem change_cell_insignificance_epsilon_witness :
    (comparisonCell 200000 180000).1 =
      signedFixed1 (((180000 : ℚ) - 200000) / 200000 * 100) ++ "%" :=
  (change_cell_insignificance_epsilon 200000 180000 (by norm_num)).2 (by norm_num)

/-- Counterexample to C4 as stated: at previous 0, latest 100 the loop's
change value is the unbounded-increase sentinel, which exceeds the 5
percent threshold, so a class determined solely by the change would be
regression; the code leaves the class empty (neutral) on that row. -/
theorem class_not_solely_change_cex :
    changeOf 0 100 = .posInf ∧ specClassOf (changeOf 0 100) = "regression" ∧
    (comparisonCell 0 100).2 = "" ∧ ("" : String) ≠ "regression" := by
  refine ⟨?_, ?_, ?_, by decide⟩
  · rw [changeOf, if_pos rfl, if_neg (by norm_num : (100 : ℚ) ≠ 0)]
  · rw [changeOf, if_pos rfl, if_neg (by norm_num : (100 : ℚ) ≠ 0)]
    rfl
  · rw [comparisonCell, if_pos rfl]

/-- Claim C4 as amended: only on rows with previous ≠ 0 is the class
determined solely by the percent change — below zero improvement, above
the fixed 5 percent threshold regression, otherwise neutral (the empty
class string); every row with previous = 0 gets the neutral class, even
the unbounded-increase row whose sentinel change exceeds the threshold. -/
theorem class_by_change_when_prev_nonzero :
    ∀ p c : ℚ,
      (p ≠ 0 → (comparisonCell p c).2 =
        (if (c - p) / p * 100 < 0 then "improvement"
         else if 5 < (c - p) / p * 100 then "regression" else "")) ∧
      (p = 0 → (comparisonCell p c).2 = "") := by
  refine fun p c => ⟨fun hp => ?_, fun hp => ?_⟩
  · rw [comparisonCell, if_neg hp]
  · rw [comparisonCell, if_pos hp]

/-- Witness for the amended C4: the −10 percent row of the spec's worked
example is classified improvement. -/
theorem class_by_change_when_prev_nonzero_witness :
    (comparisonCell 200000 180000).2 =
      (if ((180000 : ℚ) - 200000) / 200000 * 100 < 0 then "improvement"
       else if 5 < ((180000 : ℚ) - 200000) / 200000 * 100 then "regression"
       else "") :=
  (class_by_change_when_prev_nonzero 200000 180000).1 (by norm_num)

/-- Claim C5: a parsed measurement stores the mean multiplied by 1 for
unit ns, by 1000 for the three microsecond spellings, by 1000000 for ms
and by 1000000000 for s; a match with any other unit token is skipped —
it stores nothing and the remaining matches of the run are still
processed. -/
theorem unit_normalisation :
    (∀ (m : BenchMatch) (mean : ℚ),
      parseFloat m.meanStr = some mean → 0 ≤ mean →
      ((m.unit = "ns" → processMatch m = some (m.testName, mean * 1)) ∧
       ((m.unit = "us" ∨ m.unit = "µs" ∨ m.unit = "μs") →
         processMatch m = some (m.testName, mean * 1000)) ∧
       (m.unit = "ms" → processMatch m = some (m.testName, mean * 1000000)) ∧
       (m.unit = "s" → processMatch m = some (m.testName, mean * 1000000000)) ∧
       (unitMultiplier m.unit = none → processMatch m = none))) ∧
    ∀ (pre post : List BenchMatch) (m : BenchMatch), processMatch m = none →
      processMatches (pre ++ m :: post) = processMatches (pre ++ post) := by
  constructor
  · intro m mean hparse hnn
    have hbase : ∀ k : ℚ, unitMultiplier m.unit = some k →
        processMatch m = some (m.testName, mean * k) := by
      intro k hk
      rw [processMatch, classifyMatch, hparse]
      simp [if_neg (not_lt.mpr hnn), hk]
    refine ⟨fun hu => hbase 1 ?_, fun hu => hbase 1000 ?_,
      fun hu => hbase 1000000 ?_, fun hu => hbase 1000000000 ?_, fun hu => ?_⟩
    · rw [unitMultiplier, hu, if_pos rfl]
    · rcases hu with hu | hu | hu <;>
        rw [unitMultiplier, hu] <;> decide
    · rw [unitMultiplier, hu]; decide
    · rw [unitMultiplier, hu]; decide
    · rw [processMatch, classifyMatch, hparse]
      simp only [if_neg (not_lt.mpr hnn), hu]
  · intro pre post m hm
    simp [processMatches, List.filterMap_append, List.filterMap_cons, hm]

/-- Witness for C5: a mean of 12 with unit ms stores 12 × 1000000. -/
theorem unit_normalisation_witness :
    processMatch ⟨"tokenize", "12", "ms"⟩ =
      some ("tokenize", (12 : ℚ) * 1000000) :=
  (unit_normalisation.1 ⟨"tokenize", "12", "ms"⟩ 12
    (by simp [parseFloat, natOfDigits, isFloatChar]) (by norm_num)).2.2.1 rfl

theorem parseFloat_nonneg {s : String} (h : ∀ c ∈ s.data, isFloatChar c) :
    ∀ q : ℚ, parseFloat s = some q → 0 ≤ q := by
  intro q hq
  have hneg : s.data.head? ≠ some '-' := by
    intro hh
    have hm : '-' ∈ s.data := List.mem_of_mem_head? hh
    have := h _ hm
    simp [isFloatChar] at this
  have hplus : s.data.head? ≠ some '+' := by
    intro hh
    have hm : '+' ∈ s.data := List.mem_of_mem_head? hh
    have := h _ hm
    simp [isFloatChar] at this
  rw [parseFloat] at hq
  simp only [if_neg hneg,
    if_neg (show ¬(s.data.head? = some '-' ∨ s.data.head? = some '+') by
      intro hc; rcases hc with hc | hc
      · exact hneg hc
      · exact hplus hc)] at hq
  split_ifs at hq
  all_goals first
    | exact Option.noConfusion hq
    | · simp only [Option.some_inj] at hq
        rw [← hq]
        positivity

/-- Claim C9: the negative-time rejection branch of the parser is
unreachable — a mean magnitude drawn from the regex's digit-or-dot
character class can never parse to a negative number, so no match is ever
classified as a negative time. -/
theorem negative_branch_unreachable :
    ∀ m : BenchMatch, (∀ c ∈ m.meanStr.data, c.isDigit ∨ c = '.') →
      classifyMatch m ≠ MatchOutcome.negativeTime := by
  intro m h hcontra
  cases hp : parseFloat m.meanStr with
  | none => simp [classifyMatch, hp] at hcontra
  | some mean =>
    have hnn : 0 ≤ mean := by
      refine parseFloat_nonneg (fun c hc => ?_) _ hp
      rcases h c hc with h1 | h1 <;> simp [isFloatChar, h1]
    simp [classifyMatch, hp, not_lt.mpr hnn] at hcontra
    cases hu : unitMultiplier m.unit <;> simp [hu] at hcontra

/-- Witness for C9: a magnitude text of 5 with an unknown unit is not
classified as a negative time. -/
theorem negative_branch_unreachable_witness :
    classifyMatch ⟨"tokenize", "5", "parsecs"⟩ ≠ MatchOutcome.negativeTime :=
  negative_branch_unreachable ⟨"tokenize", "5", "parsecs"⟩ (by decide)

/-- Counterexample to C1 as stated: on an empty results store main exits
with status 1 without ever invoking the renderer, so that invocation
emits no HTML document at all — there is no on-disk placeholder. -/
theorem empty_store_no_html_cex :
    mainRun [] (fun _ => false) "" = (1, none) := rfl

/-- Claim C1 as amended: an HTML document is emitted exactly when the
parsed store is non-empty — with zero usable runs main returns exit
status 1 and writes nothing; with at least one run it writes the rendered
dashboard and returns 0. The renderer itself, were it invoked on an
empty store, would still emit a complete document containing the
no-results placeholder, but main never calls it in that state. -/
theorem dashboard_written_iff_store_nonempty :
    ∀ (dirs : List RunDir) (ce : String → Bool) (now : String),
      (parse_benchmark_results dirs = [] → mainRun dirs ce now = (1, none)) ∧
      (parse_benchmark_results dirs ≠ [] →
        mainRun dirs ce now =
          (0, some (generate_html_dashboard (parse_benchmark_results dirs) ce now))) ∧
      (∃ a b : String,
        generate_html_dashboard [] ce now =
          a ++ ("<p>No results available</p>" ++ b)) := by
  refine fun dirs ce now => ⟨fun h => ?_, fun h => ?_, ?_⟩
  · simp [mainRun, h]
  · simp [mainRun, h]
  · refine ⟨chunkHead ++ (now ++ (chunkTrends ++ (chartsSection ce ++ chunkLatest))),
      chunkComparisons ++ (comparisonHtml [] ++ chunkFooter), ?_⟩
    simp [generate_html_dashboard, tablesPart, latestHtml, str_append_assoc]

/-- Witness for the amended C1: the empty store exits 1 with no document. -/
theorem dashboard_written_iff_store_nonempty_witness :
    mainRun [] (fun _ => true) "ts" = (1, none) :=
  (dashboard_written_iff_store_nonempty [] (fun _ => true) "ts").1 rfl

theorem lookupA_isSome_iff {α : Type} (l : List (String × α)) (k : String) :
    (lookupA l k).isSome ↔ ∃ v, (k, v) ∈ l := by
  induction l with
  | nil => simp [lookupA]
  | cons hd t ih =>
    obtain ⟨k', v'⟩ := hd
    by_cases h : k' = k
    · subst h
      simp [lookupA]
    · simp only [lookupA, if_neg h, ih, List.mem_cons, Prod.mk.injEq]
      constructor
      · rintro ⟨v, hv⟩
        exact ⟨v, Or.inr hv⟩
      · rintro ⟨v, ⟨hk, _⟩ | hv⟩
        · exact absurd hk.symm h
        · exact ⟨v, hv⟩

theorem mem_of_lookupA_eq_some {α : Type} {l : List (String × α)} {k : String}
    {v : α} (h : lookupA l k = some v) : (k, v) ∈ l := by
  induction l with
  | nil => simp [lookupA] at h
  | cons hd t ih =>
    obtain ⟨k', v'⟩ := hd
    rw [lookupA] at h
    by_cases hk : k' = k
    · rw [if_pos hk] at h
      obtain rfl := Option.some_inj.mp h
      subst hk
      exact List.mem_cons_self _ _
    · rw [if_neg hk] at h
      exact List.mem_cons_of_mem _ (ih h)

theorem lookupA_eq_some_of_mem {α : Type} {l : List (String × α)} {k : String}
    {v : α} (hnd : (l.map Prod.fst).Nodup) (hm : (k, v) ∈ l) :
    lookupA l k = some v := by
  induction l with
  | nil => simp at hm
  | cons hd t ih =>
    obtain ⟨k', v'⟩ := hd
    rw [List.map_cons, List.nodup_cons] at hnd
    rcases List.mem_cons.mp hm with heq | hmem
    · obtain ⟨h1, h2⟩ := Prod.mk.injEq .. |>.mp heq
      rw [lookupA, if_pos h1.symm, h2]
    · have hk : k' ≠ k := by
        rintro rfl
        exact hnd.1 (List.mem_map.mpr ⟨(k', v), hmem, rfl⟩)
      rw [lookupA, if_neg hk]
      exact ih hnd.2 hmem

/-- Claim C6: with duplicate-free suite keys in the previous run (dict
keys are unique), the comparison set holds exactly the (suite, test)
pairs present in both the latest and the previous run; a pair absent
from the previous run never yields a row. -/
theorem comparison_pairs_iff :
    ∀ (latest previous : Benchmarks) (s t : String),
      (previous.map Prod.fst).Nodup →
      ((s, t) ∈ pairsOfRows (comparisonRows latest previous) ↔
        ((∃ tests, (s, tests) ∈ latest ∧ ∃ v, (t, v) ∈ tests) ∧
         (∃ tests, (s, tests) ∈ previous ∧ ∃ v, (t, v) ∈ tests))) := by
  intro latest previous s t hnd
  constructor
  · intro hmem
    rw [pairsOfRows] at hmem
    obtain ⟨r, hr, hrs⟩ := List.mem_map.mp hmem
    rw [comparisonRows] at hr
    obtain ⟨st, hst, hrst⟩ := List.mem_flatMap.mp hr
    cases hl : lookupA previous st.1 with
    | none => rw [hl] at hrst; simp at hrst
    | some ptests =>
      rw [hl] at hrst
      obtain ⟨tv, htv, htvr⟩ := List.mem_filterMap.mp hrst
      cases hl2 : lookupA ptests tv.1 with
      | none => rw [hl2] at htvr; simp at htvr
      | some pv =>
        rw [hl2] at htvr
        obtain rfl := Option.some_inj.mp htvr
        obtain ⟨hs, ht⟩ := Prod.mk.injEq .. |>.mp hrs
        refine ⟨⟨st.2, ?_, tv.2, ?_⟩, ⟨ptests, ?_, pv, ?_⟩⟩
        · rw [← hs]; exact hst
        · rw [← ht]; exact htv
        · rw [← hs]; exact mem_of_lookupA_eq_some hl
        · rw [← ht]; exact mem_of_lookupA_eq_some hl2
  · rintro ⟨⟨tests, hlt, v, hv⟩, ⟨ptests, hpt, pv, hpv⟩⟩
    have hl : lookupA previous s = some ptests := lookupA_eq_some_of_mem hnd hpt
    have hl2 : (lookupA ptests t).isSome :=
      (lookupA_isSome_iff ptests t).mpr ⟨pv, hpv⟩
    obtain ⟨pv', hpv'⟩ := Option.isSome_iff_exists.mp hl2
    rw [pairsOfRows]
    apply List.mem_map.mpr
    refine ⟨(s, t, pv', v), ?_, rfl⟩
    rw [comparisonRows]
    apply List.mem_flatMap.mpr
    refine ⟨(s, tests), hlt, ?_⟩
    simp only [hl]
    apply List.mem_filterMap.mpr
    refine ⟨(t, v), hv, ?_⟩
    simp only [hpv']

/-- Witness for C6: the worked two-run example — the pair is present in
both runs, so it is in the comparison set. -/
theorem comparison_pairs_iff_witness :
    ("parser", "parse_expr") ∈ pairsOfRows (comparisonRows
      [("parser", [("parse_expr", (180000 : ℚ))])]
      [("parser", [("parse_expr", (200000 : ℚ))])]) :=
  (comparison_pairs_iff
      [("parser", [("parse_expr", (180000 : ℚ))])]
      [("parser", [("parse_expr", (200000 : ℚ))])]
      "parser" "parse_expr" (by decide)).mpr
    ⟨⟨[("parse_expr", 180000)], by decide, 180000, by decide⟩,
     ⟨[("parse_expr", 200000)], by decide, 200000, by decide⟩⟩

theorem keepRun_spec {d : RunDir} {r : Run} (h : keepRun d = some r) :
    r.name = d.name ∧ r.benchmarks = parseRunFiles d.files ∧
      r.benchmarks ≠ [] := by
  simp only [keepRun] at h
  split_ifs at h with h1 h2 h3
  obtain rfl := Option.some_inj.mp h
  exact ⟨rfl, rfl, fun hb =>
    h3 (by rw [show parseRunFiles d.files = [] from hb]; rfl)⟩

theorem parseRunFiles_suites (files : List (String × List BenchMatch)) :
    ∀ st ∈ parseRunFiles files, st.2 ≠ [] := by
  intro st hst
  rw [parseRunFiles] at hst
  obtain ⟨f, _, hsome⟩ := List.mem_filterMap.mp hst
  simp only [] at hsome
  split_ifs at hsome with h
  obtain rfl := Option.some_inj.mp hsome
  intro hb
  apply h
  rw [show processMatches f.2 = [] from hb]
  rfl

theorem pairwise_name_filterMap {l : List RunDir} (h : l.Pairwise dirNameLE) :
    ((l.filterMap keepRun).map Run.name).Pairwise (· ≤ ·) := by
  induction l with
  | nil => simp
  | cons d t ih =>
    rw [List.pairwise_cons] at h
    rw [List.filterMap_cons]
    cases hk : keepRun d with
    | none => exact ih h.2
    | some r =>
      rw [List.map_cons]
      apply List.Pairwise.cons
      · intro y hy
        obtain ⟨r', hr', rfl⟩ := List.mem_map.mp hy
        obtain ⟨d', hd', hk'⟩ := List.mem_filterMap.mp hr'
        rw [(keepRun_spec hk).1, (keepRun_spec hk').1]
        exact h.1 d' hd'
      · exact ih h.2

/-- Claim C7: the results store lists runs in ascending directory-name
order, and every stored run has a non-empty benchmarks mapping whose
every suite holds at least one test — a directory yielding zero parsed
benchmarks is excluded rather than stored. -/
theorem store_sorted_and_nonempty :
    ∀ dirs : List RunDir,
      ((parse_benchmark_results dirs).map Run.name).Pairwise (· ≤ ·) ∧
      ∀ r ∈ parse_benchmark_results dirs,
        r.benchmarks ≠ [] ∧ ∀ st ∈ r.benchmarks, st.2 ≠ [] := by
  intro dirs
  constructor
  · exact pairwise_name_filterMap (List.sorted_insertionSort dirNameLE dirs)
  · intro r hr
    rw [parse_benchmark_results] at hr
    obtain ⟨d, _, hk⟩ := List.mem_filterMap.mp hr
    obtain ⟨_, hbench, hne⟩ := keepRun_spec hk
    refine ⟨hne, ?_⟩
    rw [hbench]
    exact parseRunFiles_suites d.files

/-- Witness for C7: a one-run store built from one valid directory. -/
theorem store_sorted_and_nonempty_witness :
    (⟨"20240101_000000", [("lexer", [("tok", (5 : ℚ))])]⟩ : Run).benchmarks
      ≠ [] := by
  have hp : parse_benchmark_results
      [⟨"20240101_000000", true, true, [("lexer", [⟨"tok", "5", "ns"⟩])]⟩] =
      [⟨"20240101_000000", [("lexer", [("tok", (5 : ℚ))])]⟩] := by
    simp [parse_benchmark_results, List.insertionSort, List.orderedInsert,
      List.filterMap_cons, List.filterMap_nil, keepRun, parseRunFiles,
      processMatches, processMatch, classifyMatch, parseFloat,
      unitMultiplier, natOfDigits, isFloatChar]
    norm_num
    decide
  exact ((store_sorted_and_nonempty
      [⟨"20240101_000000", true, true, [("lexer", [⟨"tok", "5", "ns"⟩])]⟩]).2
    _ (by rw [hp]; exact List.mem_singleton_self _)).1

/-- Claim C8: the Latest Results and Comparison table content of the
rendered document is a deterministic function of the parsed run sequence
alone — two renderings of the same parsed store, under any generation
timestamps and any chart availability, both embed the exact same
tablesPart byte string. -/
theorem tables_deterministic :
    ∀ (dirs : List RunDir) (c c' : String → Bool) (n n' : String),
      ∃ a a' : String,
        generate_html_dashboard (parse_benchmark_results dirs) c n =
          a ++ tablesPart (parse_benchmark_results dirs) ∧
        generate_html_dashboard (parse_benchmark_results dirs) c' n' =
          a' ++ tablesPart (parse_benchmark_results dirs) := by
  intro dirs c c' n n'
  refine ⟨chunkHead ++ (n ++ (chunkTrends ++ chartsSection c)),
    chunkHead ++ (n' ++ (chunkTrends ++ chartsSection c')), ?_, ?_⟩ <;>
    simp [generate_html_dashboard, str_append_assoc]

end Dashboard
